import Mathlib

/-!
Verification of the Conversation Session Engine of the rag_agent_project
repository.  The repository contains two near-identical chat clients:

* the "chat" variant: frontend/src/components/ChatInterface.vue together
  with frontend/src/views/HomeView.vue, using the api object of
  src/api/client.ts;
* the "app" variant: src/App.vue, which inlines the fetch calls.

Pure functions of the source are translated directly; the stateful Vue
component logic is translated into explicit state-passing functions.
Strings persisted through localStorage are modelled at the parsed level:
the stored value is either an unparseable blob (Stored.malformed) or a
JSON document (Stored.json j); JSON.stringify and JSON.parse of the
standard library are treated as mutually inverse on JSON documents, which
is their documented behaviour and they are not code of this repository.
-/

/-- A JSON document, the universe of values JSON.parse can produce. -/
inductive Json where
  | null : Json
  | bool (b : Bool) : Json
  | num (q : ℚ) : Json
  | str (s : String) : Json
  | arr (elems : List Json) : Json
  | obj (fields : List (String × Json)) : Json

/-- Reading a property of a JSON object, first binding wins (the encoders
below never produce duplicate keys). -/
def getField : List (String × Json) → String → Option Json
  | [], _ => none
  | (k, v) :: rest, key => if k = key then some v else getField rest key

def asStr : Option Json → Option String
  | some (Json.str s) => some s
  | _ => none

def asNum : Option Json → Option ℚ
  | some (Json.num q) => some q
  | _ => none

def asArr : Option Json → Option (List Json)
  | some (Json.arr xs) => some xs
  | _ => none

/-- Message.role in both variants is the union type user | assistant. -/
inductive Role where
  | user : Role
  | assistant : Role
  deriving DecidableEq, Repr

def roleStr : Role → String
  | .user => "user"
  | .assistant => "assistant"

def decodeRole (s : String) : Option Role :=
  if s = "user" then some Role.user
  else if s = "assistant" then some Role.assistant
  else none

/-- One knowledge entry of retrieval_context.knowledge:
{ type, content, score } (src/api/client.ts QueryResponse). -/
structure KnowledgeItem where
  type : String
  content : String
  score : ℚ
  deriving DecidableEq, Repr

/-- One memory entry of retrieval_context.memory:
{ entity, type, properties, score }.  The property record holds the text
values observed in the sources (Record string to string). -/
structure MemoryItem where
  entity : String
  type : String
  properties : List (String × String)
  score : ℚ
  deriving DecidableEq, Repr

/-- The context object attached to assistant messages:
{ knowledge, memory, subQuestions }.  Both variants always build all three
fields (defaulting each one to an empty array). -/
structure RetrievalContext where
  knowledge : List KnowledgeItem
  memory : List MemoryItem
  subQuestions : List String
  deriving DecidableEq, Repr

/-- The Message interface of both variants: role, content, timestamp and
an optional context object.  ChatInterface.vue names the context property
retrievalContext, App.vue names it context; the encoders below take the
property name as a parameter. -/
structure Message where
  role : Role
  content : String
  timestamp : String
  context : Option RetrievalContext
  deriving DecidableEq, Repr

def emptyContext : RetrievalContext := ⟨[], [], []⟩

/-- The context property name used by ChatInterface.vue. -/
def ckey : String := "retrievalContext"

/-- The context property name used by App.vue. -/
def akey : String := "context"

def encodeKnowledge (k : KnowledgeItem) : Json :=
  Json.obj [("type", Json.str k.type), ("content", Json.str k.content),
            ("score", Json.num k.score)]

def encodeProps : List (String × String) → Json :=
  fun ps => Json.obj (ps.map fun p => (p.1, Json.str p.2))

def encodeMemory (m : MemoryItem) : Json :=
  Json.obj [("entity", Json.str m.entity), ("type", Json.str m.type),
            ("properties", encodeProps m.properties), ("score", Json.num m.score)]

def encodeCtx (c : RetrievalContext) : Json :=
  Json.obj [("knowledge", Json.arr (c.knowledge.map encodeKnowledge)),
            ("memory", Json.arr (c.memory.map encodeMemory)),
            ("subQuestions", Json.arr (c.subQuestions.map Json.str))]

/-- JSON.stringify of one message object; a missing optional property is
omitted from the output, exactly as stringify omits undefined fields. -/
def encodeMessage (key : String) (m : Message) : Json :=
  Json.obj ([("role", Json.str (roleStr m.role)),
             ("content", Json.str m.content),
             ("timestamp", Json.str m.timestamp)] ++
            (match m.context with
             | none => []
             | some c => [(key, encodeCtx c)]))

/-- JSON.stringify of the message list (saveHistory serializes the whole
array wholesale). -/
def encodeMessages (key : String) (ms : List Message) : Json :=
  Json.arr (ms.map (encodeMessage key))

def decodeStr : Json → Option String
  | .str s => some s
  | _ => none

def decodeList {α : Type} (f : Json → Option α) : List Json → Option (List α)
  | [] => some []
  | j :: rest =>
    match f j, decodeList f rest with
    | some a, some as => some (a :: as)
    | _, _ => none

def decodeKnowledge : Json → Option KnowledgeItem
  | .obj fs =>
    match asStr (getField fs "type"), asStr (getField fs "content"),
          asNum (getField fs "score") with
    | some t, some c, some sc => some ⟨t, c, sc⟩
    | _, _, _ => none
  | _ => none

def decodePropPair : String × Json → Option (String × String)
  | (k, .str v) => some (k, v)
  | _ => none

def decodePropList : List (String × Json) → Option (List (String × String))
  | [] => some []
  | p :: rest =>
    match decodePropPair p, decodePropList rest with
    | some q, some qs => some (q :: qs)
    | _, _ => none

def decodeProps : Json → Option (List (String × String))
  | .obj fs => decodePropList fs
  | _ => none

def decodeMemory : Json → Option MemoryItem
  | .obj fs =>
    match asStr (getField fs "entity"), asStr (getField fs "type"),
          (getField fs "properties").bind decodeProps,
          asNum (getField fs "score") with
    | some e, some t, some ps, some sc => some ⟨e, t, ps, sc⟩
    | _, _, _, _ => none
  | _ => none

def decodeCtx : Json → Option RetrievalContext
  | .obj fs =>
    match asArr (getField fs "knowledge"), asArr (getField fs "memory"),
          asArr (getField fs "subQuestions") with
    | some kj, some mj, some sj =>
      match decodeList decodeKnowledge kj, decodeList decodeMemory mj,
            decodeList decodeStr sj with
      | some k, some m, some s => some ⟨k, m, s⟩
      | _, _, _ => none
    | _, _, _ => none
  | _ => none

def decodeMessage (key : String) : Json → Option Message
  | .obj fs =>
    match asStr (getField fs "role"), asStr (getField fs "content"),
          asStr (getField fs "timestamp") with
    | some r, some c, some ts =>
      match decodeRole r with
      | some role =>
        match getField fs key with
        | none => some ⟨role, c, ts, none⟩
        | some cj =>
          match decodeCtx cj with
          | some ctx => some ⟨role, c, ts, some ctx⟩
          | none => none
      | none => none
    | _, _, _ => none
  | _ => none

/-- Reading a whole persisted conversation back field by field. -/
def decodeMessages (key : String) : Json → Option (List Message)
  | .arr js => decodeList (decodeMessage key) js
  | _ => none

theorem decodeList_map {α : Type} (f : Json → Option α) (g : α → Json)
    (h : ∀ a, f (g a) = some a) :
    ∀ l : List α, decodeList f (l.map g) = some l := by
  intro l
  induction l with
  | nil => rfl
  | cons a t ih => simp [decodeList, h, ih]

theorem decodeKnowledge_encode (k : KnowledgeItem) :
    decodeKnowledge (encodeKnowledge k) = some k := by
  cases k
  simp +decide [encodeKnowledge, decodeKnowledge, getField, asStr, asNum]

theorem decodePropList_map (ps : List (String × String)) :
    decodePropList (ps.map fun p => (p.1, Json.str p.2)) = some ps := by
  induction ps with
  | nil => rfl
  | cons p t ih => simp [decodePropList, decodePropPair, ih]

theorem decodeProps_encode (ps : List (String × String)) :
    decodeProps (encodeProps ps) = some ps := by
  simp [encodeProps, decodeProps, decodePropList_map]

theorem decodeMemory_encode (m : MemoryItem) :
    decodeMemory (encodeMemory m) = some m := by
  cases m
  simp +decide [encodeMemory, decodeMemory, getField, asStr, asNum,
    decodeProps_encode]

theorem decodeCtx_encode (c : RetrievalContext) :
    decodeCtx (encodeCtx c) = some c := by
  cases c
  simp +decide [encodeCtx, decodeCtx, getField, asArr,
    decodeList_map decodeKnowledge encodeKnowledge decodeKnowledge_encode,
    decodeList_map decodeMemory encodeMemory decodeMemory_encode,
    decodeList_map decodeStr Json.str (fun s => rfl)]

theorem decodeMessage_encode_chat (m : Message) :
    decodeMessage ckey (encodeMessage ckey m) = some m := by
  cases m with
  | mk role content timestamp context =>
    cases context with
    | none =>
      cases role <;>
        simp +decide [encodeMessage, decodeMessage, getField, asStr,
          roleStr, decodeRole, ckey]
    | some c =>
      cases role <;>
        simp +decide [encodeMessage, decodeMessage, getField, asStr,
          roleStr, decodeRole, ckey, decodeCtx_encode]

theorem decodeMessage_encode_app (m : Message) :
    decodeMessage akey (encodeMessage akey m) = some m := by
  cases m with
  | mk role content timestamp context =>
    cases context with
    | none =>
      cases role <;>
        simp +decide [encodeMessage, decodeMessage, getField, asStr,
          roleStr, decodeRole, akey]
    | some c =>
      cases role <;>
        simp +decide [encodeMessage, decodeMessage, getField, asStr,
          roleStr, decodeRole, akey, decodeCtx_encode]

theorem decodeMessages_encode_chat (ms : List Message) :
    decodeMessages ckey (encodeMessages ckey ms) = some ms := by
  simp [encodeMessages, decodeMessages,
    decodeList_map (decodeMessage ckey) (encodeMessage ckey)
      decodeMessage_encode_chat]

theorem decodeMessages_encode_app (ms : List Message) :
    decodeMessages akey (encodeMessages akey ms) = some ms := by
  simp [encodeMessages, decodeMessages,
    decodeList_map (decodeMessage akey) (encodeMessage akey)
      decodeMessage_encode_app]

/-!
History Store.  localStorage under the key chat_history is modelled as an
Option Stored: none when the key is absent, Stored.malformed when the
stored string does not parse as JSON, Stored.json j when it parses to the
document j.
-/

/-- The value found under the chat_history key of localStorage. -/
inductive Stored where
  | malformed : Stored
  | json (j : Json) : Stored

/-- The initial messages array of ChatInterface.vue (initialMessages),
one canned assistant greeting stamped at creation time. -/
def initialMessages_chat (now : String) : List Message :=
  [⟨Role.assistant,
    "您好！我是RAG智能助手，可以帮助您解答算法相关的问题。请问您想了解什么？",
    now, none⟩]

/-- The initializer of the messages ref of App.vue, one canned assistant
greeting stamped at creation time. -/
def initialMessages_app (now : String) : List Message :=
  [⟨Role.assistant,
    "您好！我是RAG智能助手，可以帮助您解答算法相关的问题。有什么可以帮您的？",
    now, none⟩]

/-- saveHistory of ChatInterface.vue:
localStorage.setItem(chat_history, JSON.stringify(messages)). -/
def saveHistory_chat (ms : List Message) : Stored :=
  Stored.json (encodeMessages ckey ms)

/-- saveHistory of App.vue, identical except that its messages carry the
context property name. -/
def saveHistory_app (ms : List Message) : Stored :=
  Stored.json (encodeMessages akey ms)

/-- loadHistory of ChatInterface.vue.  The result is the conversation
value installed into the messages ref, at the JSON level: when the key is
absent or JSON.parse throws, the initialMessages greeting; otherwise the
parsed document itself, installed without any shape validation. -/
def loadHistory_chat (now : String) : Option Stored → Json
  | none => encodeMessages ckey (initialMessages_chat now)
  | some Stored.malformed => encodeMessages ckey (initialMessages_chat now)
  | some (Stored.json j) => j

/-- The Array.isArray(history) and history.length greater than zero check
of loadHistory in App.vue. -/
def isNonEmptyArr : Json → Bool
  | Json.arr (_ :: _) => true
  | _ => false

/-- loadHistory of App.vue.  A parse error is swallowed and a parsed value
is installed only when it is a non-empty array; in every other case the
messages ref keeps its initializer (the greeting). -/
def loadHistory_app (now : String) : Option Stored → Json
  | none => encodeMessages akey (initialMessages_app now)
  | some Stored.malformed => encodeMessages akey (initialMessages_app now)
  | some (Stored.json j) =>
    if isNonEmptyArr j then j else encodeMessages akey (initialMessages_app now)

/-!
Query Dispatcher.  src/api/client.ts api.query posts the question and
either returns the parsed payload or throws (non-ok status, network
error, or a body that fails to parse); App.vue inlines the same fetch.
The outcome of the one remote exchange is therefore a four-way sum.
-/

/-- The payload shape of a 200 response of POST /query; optional fields
stay optional, exactly as the call sites read them with fallbacks. -/
structure RetrievalPayload where
  knowledge : Option (List KnowledgeItem)
  memory : Option (List MemoryItem)
  deriving DecidableEq, Repr

structure QueryPayload where
  response : String
  timestamp : Option String
  sub_questions : Option (List String)
  retrieval_context : Option RetrievalPayload
  deriving DecidableEq, Repr

inductive QueryOutcome where
  | success (p : QueryPayload) : QueryOutcome
  | httpError : QueryOutcome
  | networkError : QueryOutcome
  | badJson : QueryOutcome
  deriving DecidableEq, Repr

def QueryOutcome.isFailure : QueryOutcome → Bool
  | .success _ => false
  | _ => true

/-- The JavaScript idiom value or fallback on an optional string, where
the empty string is falsy and also falls back. -/
def jsOrElse (fallback : String) : Option String → String
  | some t => if t = "" then fallback else t
  | none => fallback

/-- data.retrieval_context?.knowledge with a default of the empty array,
and likewise for memory and sub_questions: the context object built by
both success paths. -/
def successContext (p : QueryPayload) : RetrievalContext :=
  { knowledge := match p.retrieval_context with
      | some r => r.knowledge.getD []
      | none => []
    memory := match p.retrieval_context with
      | some r => r.memory.getD []
      | none => []
    subQuestions := p.sub_questions.getD [] }

/-- A user message as pushed by both sendMessage variants: role user, the
trimmed text, a creation timestamp, no context property. -/
def userMessage (text now : String) : Message :=
  ⟨Role.user, text, now, none⟩

/-- The fixed apologetic message of the ChatInterface.vue catch branch:
fixed content and an all-empty retrieval context. -/
def apologyMessage (now : String) : Message :=
  ⟨Role.assistant, "抱歉，处理您的请求时出现了错误。请稍后再试。", now,
   some emptyContext⟩

/-- The assistant message ChatInterface.vue appends for each outcome of
the remote exchange: the mapped payload on success, the fixed apology on
any failure. -/
def responseMessage_chat (now : String) : QueryOutcome → Message
  | .success p =>
    ⟨Role.assistant, p.response, jsOrElse now p.timestamp,
     some (successContext p)⟩
  | _ => apologyMessage now

/-- String.prototype.trim of JavaScript: drop whitespace characters from
both ends of the text.  Written by structural recursion over the
character data so that it evaluates inside the kernel. -/
def jsTrim (s : String) : String :=
  ⟨((s.data.dropWhile Char.isWhitespace).reverse.dropWhile
      Char.isWhitespace).reverse⟩

/-- The first element of text.split on the question mark: the characters
before the first question mark (the whole text when there is none). -/
def jsSplitHead (s : String) : String :=
  ⟨s.data.takeWhile (fun c => c ≠ '?')⟩

/-- text.split with separator the question mark, first element, with the
JavaScript falsy fallback used in the mock sub-questions of App.vue. -/
def qstem (fallback text : String) : String :=
  let h := jsSplitHead text
  if h = "" then fallback else h

def mockContent (text : String) : String :=
  "关于\"" ++ text ++ "\"，我为您整理了以下信息：\n\n**核心概念:**\nKMP算法是一种高效的字符串匹配算法，通过预处理模式串避免不必要的回溯。\n\n**主要特点:**\n- 时间复杂度: O(n+m)\n- 空间复杂度: O(m)\n- 避免主串指针回溯\n\n**实现步骤:**\n1. 构建部分匹配表(next数组)\n2. 双指针匹配主串和模式串\n3. 失败时根据next数组跳转\n\n您还想了解这个算法的哪些方面？"

def mockKnowledge : List KnowledgeItem :=
  [⟨"textbook", "KMP算法是一种高效的字符串匹配算法，时间复杂度为O(n+m)",
    (0.95 : ℚ)⟩]

def mockMemory : List MemoryItem :=
  [⟨"KMP算法", "算法", [("description", "字符串匹配算法")], (0.88 : ℚ)⟩]

def mockSubQuestions (text : String) : List String :=
  ["什么是" ++ qstem "这个" text ++ "的基本原理？",
   "如何实现" ++ qstem "这个" text ++ "？",
   qstem "它" text ++ "有什么应用场景？"]

/-- The locally fabricated degraded answer of the App.vue catch branch:
templated content and a mock retrieval context. -/
def mockMessage (text now : String) : Message :=
  ⟨Role.assistant, mockContent text, now,
   some ⟨mockKnowledge, mockMemory, mockSubQuestions text⟩⟩

/-- The assistant message App.vue appends for each outcome of the remote
exchange. -/
def responseMessage_app (text now : String) : QueryOutcome → Message
  | .success p =>
    ⟨Role.assistant, p.response, jsOrElse now p.timestamp,
     some (successContext p)⟩
  | _ => mockMessage text now

/-!
Conversation Controller.  Each variant owns messages, the input box, the
loading flag and the durable history copy; App.vue additionally owns the
connection status indicator.  sendMessage is the one transition driven by
the outcome of the remote exchange; both variants guard it with
if not text or loading then return.
-/

structure ChatState where
  messages : List Message
  inputText : String
  loading : Bool
  stored : Option Stored

inductive ConnStatus where
  | connected : ConnStatus
  | disconnected : ConnStatus
  | checking : ConnStatus
  deriving DecidableEq, Repr

structure AppState where
  messages : List Message
  inputText : String
  loading : Bool
  connection : ConnStatus
  stored : Option Stored

/-- The part of sendMessage in ChatInterface.vue that runs before the
awaited fetch: push the user message, clear the input, persist, set
loading.  This is the state visible while the request is in flight. -/
def submitPhase_chat (now : String) (s : ChatState) : ChatState :=
  let text := jsTrim s.inputText
  if text = "" ∨ s.loading = true then s
  else
    let afterUser := s.messages ++ [userMessage text now]
    { messages := afterUser, inputText := "", loading := true,
      stored := some (Stored.json (encodeMessages ckey afterUser)) }

/-- The try/catch/finally part of sendMessage in ChatInterface.vue after
the awaited call resolves with the given outcome: append the response
message, clear loading, persist. -/
def completePhase_chat (now : String) (o : QueryOutcome) (s : ChatState) :
    ChatState :=
  let finalMsgs := s.messages ++ [responseMessage_chat now o]
  { s with messages := finalMsgs, loading := false,
           stored := some (Stored.json (encodeMessages ckey finalMsgs)) }

/-- sendMessage of ChatInterface.vue, as a whole: a no-op when the input
trims empty or a request is in flight, otherwise the submit phase
followed by the completion of the one remote exchange.  The catch branch
swallows the error, so the function is total: no outcome surfaces an
error to the caller. -/
def sendMessage_chat (now : String) (o : QueryOutcome) (s : ChatState) :
    ChatState :=
  if jsTrim s.inputText = "" ∨ s.loading = true then s
  else completePhase_chat now o (submitPhase_chat now s)

/-- The part of sendMessage in App.vue before the awaited fetch: push the
user message, clear the input, set loading (App.vue does not persist
until the finally block). -/
def submitPhase_app (now : String) (s : AppState) : AppState :=
  let text := jsTrim s.inputText
  if text = "" ∨ s.loading = true then s
  else
    { s with messages := s.messages ++ [userMessage text now],
             inputText := "", loading := true }

/-- The try/catch/finally part of sendMessage in App.vue: append the
response message, set the connection indicator, clear loading, persist. -/
def completePhase_app (text now : String) (o : QueryOutcome) (s : AppState) :
    AppState :=
  let finalMsgs := s.messages ++ [responseMessage_app text now o]
  { s with messages := finalMsgs, loading := false,
           connection := if o.isFailure then ConnStatus.disconnected
                         else ConnStatus.connected,
           stored := some (Stored.json (encodeMessages akey finalMsgs)) }

/-- sendMessage of App.vue as a whole; total for the same reason as the
chat variant. -/
def sendMessage_app (now : String) (o : QueryOutcome) (s : AppState) :
    AppState :=
  if jsTrim s.inputText = "" ∨ s.loading = true then s
  else completePhase_app (jsTrim s.inputText) now o (submitPhase_app now s)

/-- clearChat of ChatInterface.vue: behind the confirm dialog, reset the
messages ref to the initial greeting and remove the persisted history. -/
def clearChat_chat (confirmed : Bool) (now : String) (s : ChatState) :
    ChatState :=
  if confirmed then
    { s with messages := initialMessages_chat now, stored := none }
  else s

/-- clearChat of App.vue, same shape with its own greeting. -/
def clearChat_app (confirmed : Bool) (now : String) (s : AppState) :
    AppState :=
  if confirmed then
    { s with messages := initialMessages_app now, stored := none }
  else s

/-!
Storage availability.  When client-local storage is disabled, every
localStorage access throws.  saveHistory, saveUserId and the getItem call
of loadHistory contain no try/catch around the storage access (the try of
loadHistory only wraps JSON.parse), so the storage exception propagates
to their callers.  The Except layer below makes that propagation
explicit.
-/

inductive StorageError where
  | unavailable : StorageError
  deriving DecidableEq, Repr

/-- One raw localStorage access: the value when storage works, a thrown
exception when it is unavailable. -/
def lsAccess {α : Type} (avail : Bool) (v : α) : Except StorageError α :=
  if avail then Except.ok v else Except.error StorageError.unavailable

/-- saveHistory of ChatInterface.vue under a storage-availability flag:
the setItem call is not guarded, so its exception propagates. -/
def saveHistory_chatLS (avail : Bool) (ms : List Message) :
    Except StorageError Stored :=
  lsAccess avail (saveHistory_chat ms)

/-- saveUserId of HomeView.vue under a storage-availability flag: the
setItem call is not guarded. -/
def saveUserId_home (avail : Bool) (id : String) :
    Except StorageError String :=
  lsAccess avail id

/-- loadHistory of ChatInterface.vue under a storage-availability flag:
the getItem call sits outside the try block, so its exception
propagates; only a parse error is caught. -/
def loadHistory_chatLS (avail : Bool) (now : String) (cur : Option Stored) :
    Except StorageError Json := do
  let saved ← lsAccess avail cur
  return loadHistory_chat now saved

/-!
Health check.  src/api/client.ts api.healthCheck fetches GET /health and
returns response.ok, or false when the fetch throws.  App.vue
checkConnection does the same fetch inline and sets the indicator.
HomeView.vue refreshStatus instead reads a status property off the value
api.healthCheck resolves to.
-/

/-- The outcome of one GET /health exchange: a response with its ok flag,
or a network failure. -/
inductive HealthOutcome where
  | response (ok : Bool) : HealthOutcome
  | netError : HealthOutcome
  deriving DecidableEq, Repr

/-- api.healthCheck of src/api/client.ts. -/
def healthCheck : HealthOutcome → Bool
  | .response ok => ok
  | .netError => false

/-- checkConnection of App.vue: connected exactly on response.ok, and
disconnected on a non-ok response or a thrown fetch. -/
def checkConnection_app : HealthOutcome → ConnStatus
  | .response true => ConnStatus.connected
  | .response false => ConnStatus.disconnected
  | .netError => ConnStatus.disconnected

/-- In JavaScript, reading a named property off a primitive boolean value
yields undefined: a boolean has no status field. -/
def boolFieldAccess (_b : Bool) (_field : String) : Option String := none

/-- refreshStatus of HomeView.vue: it awaits api.healthCheck and tests
health.status for the string healthy; api.healthCheck resolves to a
boolean, so the test reads a property of a boolean. -/
def refreshStatus_home (o : HealthOutcome) : ConnStatus :=
  let health := healthCheck o
  if boolFieldAccess health "status" = some "healthy" then
    ConnStatus.connected
  else ConnStatus.disconnected

/-!
Query fetch configuration.  The options object passed to fetch by
api.query of src/api/client.ts (and by the inline fetch of App.vue)
carries method, headers and body only: no AbortSignal and no timeout of
any kind is attached, and no timer races the await.
-/

structure FetchInit where
  method : String
  hasContentTypeHeader : Bool
  hasBody : Bool
  hasAbortSignal : Bool

/-- The fetch options of the POST /query call, read off the source. -/
def queryFetchInit : FetchInit :=
  { method := "POST", hasContentTypeHeader := true, hasBody := true,
    hasAbortSignal := false }

/-!
Batch Runner and the event loop.  The client is single-threaded: the only
suspension point is the awaited fetch.  An execution is a sequence of
events, each either a submit attempt (a timer of loadExamples firing and
calling sendMessage) or the resolution of the in-flight fetch.  The step
function mirrors the two halves of sendMessage of App.vue; inFlight
counts issued but unresolved requests, and a resolution event is only
possible when a request is actually in flight.
-/

structure LoopState where
  messages : List Message
  loading : Bool
  inFlight : Nat
  deriving DecidableEq, Repr

inductive BatchEvt where
  | attempt (q : String) : BatchEvt
  | complete (q : String) (o : QueryOutcome) : BatchEvt
  deriving DecidableEq, Repr

def BatchEvt.isAttempt : BatchEvt → Bool
  | .attempt _ => true
  | _ => false

def batchStep (now : String) (s : LoopState) : BatchEvt → Option LoopState
  | .attempt q =>
    if jsTrim q = "" ∨ s.loading = true then some s
    else some ⟨s.messages ++ [userMessage (jsTrim q) now], true, s.inFlight + 1⟩
  | .complete q o =>
    match s.inFlight with
    | 0 => none
    | n + 1 =>
      some ⟨s.messages ++ [responseMessage_app (jsTrim q) now o], false, n⟩

def runTrace (now : String) (s : LoopState) : List BatchEvt → Option LoopState
  | [] => some s
  | e :: rest =>
    match batchStep now s e with
    | some s2 => runTrace now s2 rest
    | none => none

/-- The example question list of App.vue. -/
def exampleQuestions_app : List String :=
  ["什么是KMP算法？", "KMP算法的时间复杂度是多少？",
   "请解释KMP算法中的部分匹配表", "KMP算法和暴力匹配算法有什么区别？",
   "动态规划的基本思想是什么？", "什么是最优子结构？",
   "常见的排序算法有哪些？"]

/-- The example question list of HomeView.vue. -/
def exampleQuestions_home : List String :=
  ["什么是KMP算法？", "KMP算法的时间复杂度是多少？",
   "请解释KMP算法中的部分匹配表", "KMP算法和暴力匹配算法有什么区别？",
   "如何实现KMP算法的next数组？"]

/-- loadExamples of App.vue runs sendNext at times 0, 2100, 4200, ...:
each round sets the input, waits the 100 millisecond inner timer, calls
sendMessage, and arms the 2000 millisecond pacing timer for the next
round.  considerTime i is the instant item i is taken up. -/
def considerTime_app (i : Nat) : Nat := 2100 * i

/-- The instant sendMessage is called for item i of loadExamples: the
inner 100 millisecond timer after the round starts. -/
def dispatchTime_app (i : Nat) : Nat := 2100 * i + 100

/-- loadExampleQuestions of HomeView.vue schedules item i with
setTimeout at delay 2000 times i. -/
def dispatchTime_home (i : Nat) : Nat := 2000 * i

/-- The finite attempt schedule loadExamples generates: one timed submit
attempt per example question, in list order. -/
def loadExamplesAttempts : List (Nat × String) :=
  (List.range exampleQuestions_app.length).map
    fun i => (dispatchTime_app i, exampleQuestions_app.getD i "")

theorem runTrace_invariant (now : String) :
    ∀ evts (s s2 : LoopState),
      s.inFlight ≤ 1 → s.loading = decide (s.inFlight = 1) →
      runTrace now s evts = some s2 →
      s2.inFlight ≤ 1 ∧ s2.loading = decide (s2.inFlight = 1) := by
  intro evts
  induction evts with
  | nil =>
    intro s s2 h1 h2 hrun
    cases hrun
    exact ⟨h1, h2⟩
  | cons e rest ih =>
    intro s s2 h1 h2 hrun
    cases e with
    | attempt q =>
      by_cases hg : jsTrim q = "" ∨ s.loading = true
      · have hstep : batchStep now s (BatchEvt.attempt q) = some s := by
          simp [batchStep, hg]
        rw [runTrace, hstep] at hrun
        exact ih s s2 h1 h2 hrun
      · have hload : s.loading = false := by
          rcases Bool.eq_false_or_eq_true s.loading with h | h
          · exact absurd (Or.inr h) hg
          · exact h
        have hzero : s.inFlight = 0 := by
          rw [hload] at h2
          have : ¬ (s.inFlight = 1) := by
            intro hc
            simp [hc] at h2
          omega
        have hstep : batchStep now s (BatchEvt.attempt q) =
            some ⟨s.messages ++ [userMessage (jsTrim q) now], true, s.inFlight + 1⟩ := by
          simp [batchStep, hg]
        rw [runTrace, hstep] at hrun
        exact ih _ s2 (by simp [hzero]) (by simp [hzero]) hrun
    | complete q o =>
      match hf : s.inFlight with
      | 0 =>
        rw [runTrace] at hrun
        simp [batchStep, hf] at hrun
      | n + 1 =>
        have hn : n = 0 := by omega
        have hstep : batchStep now s (BatchEvt.complete q o) =
            some ⟨s.messages ++ [responseMessage_app (jsTrim q) now o], false, n⟩ := by
          simp [batchStep, hf]
        rw [runTrace, hstep] at hrun
        exact ih _ s2 (by simp [hn]) (by simp [hn]) hrun

theorem attemptsOnly_no_unblock (now : String) :
    ∀ evts (s s2 : LoopState), (∀ e ∈ evts, e.isAttempt = true) →
      s.loading = true → runTrace now s evts = some s2 → s2 = s := by
  intro evts
  induction evts with
  | nil =>
    intro s s2 _ _ hrun
    cases hrun
    rfl
  | cons e rest ih =>
    intro s s2 hall hload hrun
    cases e with
    | attempt q =>
      have hstep : batchStep now s (BatchEvt.attempt q) = some s := by
        simp [batchStep, hload]
      rw [runTrace, hstep] at hrun
      exact ih s s2 (fun e he => hall e (List.mem_cons_of_mem _ he)) hload hrun
    | complete q o =>
      have : BatchEvt.isAttempt (BatchEvt.complete q o) = true :=
        hall _ (List.mem_cons_self _ _)
      simp [BatchEvt.isAttempt] at this

/-- Claim C2 (confirmed).  A submit whose raw text trims empty, or a
submit issued while a request is in flight, leaves the controller state
of either variant completely unchanged: same message list (length and
contents), same input, same loading flag, same persisted copy. -/
theorem C2_reject_noop (s : ChatState) (t : AppState) (now now2 : String)
    (o o2 : QueryOutcome)
    (hs : jsTrim s.inputText = "" ∨ s.loading = true)
    (ht : jsTrim t.inputText = "" ∨ t.loading = true) :
    sendMessage_chat now o s = s ∧ sendMessage_app now2 o2 t = t := by
  refine ⟨?_, ?_⟩
  · unfold sendMessage_chat
    rw [if_pos hs]
  · unfold sendMessage_app
    rw [if_pos ht]

/-- Witness for C2 at whitespace-only input in Idle state. -/
theorem C2_witness :
    (jsTrim "   " = "" ∨ false = true)
  ∧ sendMessage_chat "t0" QueryOutcome.httpError
      ⟨initialMessages_chat "t0", "   ", false, none⟩
      = ⟨initialMessages_chat "t0", "   ", false, none⟩
  ∧ sendMessage_app "t0" QueryOutcome.httpError
      ⟨initialMessages_app "t0", "   ", false, ConnStatus.disconnected, none⟩
      = ⟨initialMessages_app "t0", "   ", false, ConnStatus.disconnected, none⟩ := by
  have h := C2_reject_noop
    ⟨initialMessages_chat "t0", "   ", false, none⟩
    ⟨initialMessages_app "t0", "   ", false, ConnStatus.disconnected, none⟩
    "t0" "t0" QueryOutcome.httpError QueryOutcome.httpError
    (Or.inl (by decide)) (Or.inl (by decide))
  exact ⟨Or.inl (by decide), h.1, h.2⟩

/-- Claim C1, counterexample.  The claim asserts one fixed apologetic
assistant message with empty retrieval context as a single consistent
failure policy.  In the App.vue variant, a failing submit of the
non-empty text x appends a fabricated degraded answer with a non-empty
mock retrieval context instead of the fixed apology. -/
theorem C1_counterexample :
    (sendMessage_app "t0" QueryOutcome.networkError
        ⟨initialMessages_app "t0", "x", false, ConnStatus.disconnected,
         none⟩).messages.getLast?
      ≠ some (apologyMessage "t0") := by
  decide

/-- Claim C1 (corrected).  For every submit of trimmed non-empty text
whose remote query fails (non-ok status, network error, or malformed
payload), each controller appends exactly one assistant message after the
user message, swallows the error (the transition is a total function) and
terminates Idle with loading false; but the appended message is the fixed
apology with empty retrieval context only in the ChatInterface variant,
while the App variant appends its locally fabricated degraded answer with
mock retrieval context, so the policy is per variant, not single. -/
theorem C1_failure_degrades (s : ChatState) (t : AppState) (now : String)
    (f g : QueryOutcome)
    (hs1 : jsTrim s.inputText ≠ "") (hs2 : s.loading = false)
    (ht1 : jsTrim t.inputText ≠ "") (ht2 : t.loading = false)
    (hf : f.isFailure = true) (hg : g.isFailure = true) :
    (sendMessage_chat now f s).messages
        = s.messages ++ [userMessage (jsTrim s.inputText) now, apologyMessage now]
  ∧ (sendMessage_chat now f s).loading = false
  ∧ (sendMessage_app now g t).messages
        = t.messages ++ [userMessage (jsTrim t.inputText) now,
                         mockMessage (jsTrim t.inputText) now]
  ∧ (sendMessage_app now g t).loading = false
  ∧ (sendMessage_app now g t).connection = ConnStatus.disconnected := by
  have hcs : ¬ (jsTrim s.inputText = "" ∨ s.loading = true) := by
    simp [hs1, hs2]
  have hct : ¬ (jsTrim t.inputText = "" ∨ t.loading = true) := by
    simp [ht1, ht2]
  have hrc : responseMessage_chat now f = apologyMessage now := by
    cases f <;> simp_all [responseMessage_chat, QueryOutcome.isFailure]
  have hra : responseMessage_app (jsTrim t.inputText) now g
      = mockMessage (jsTrim t.inputText) now := by
    cases g <;> simp_all [responseMessage_app, QueryOutcome.isFailure]
  refine ⟨?_, ?_, ?_, ?_, ?_⟩ <;>
    simp [sendMessage_chat, sendMessage_app, submitPhase_chat,
      submitPhase_app, completePhase_chat, completePhase_app,
      hcs, hct, hrc, hra, hf, hg]

/-- Witness for C1 at the text x with a network error in both variants. -/
theorem C1_witness :
    (jsTrim "x" ≠ "" ∧ QueryOutcome.networkError.isFailure = true)
  ∧ ((sendMessage_chat "t0" QueryOutcome.networkError
        ⟨initialMessages_chat "t0", "x", false, none⟩).messages
      = initialMessages_chat "t0"
          ++ [userMessage (jsTrim "x") "t0", apologyMessage "t0"]
    ∧ (sendMessage_chat "t0" QueryOutcome.networkError
        ⟨initialMessages_chat "t0", "x", false, none⟩).loading = false
    ∧ (sendMessage_app "t0" QueryOutcome.networkError
        ⟨initialMessages_app "t0", "x", false, ConnStatus.disconnected,
         none⟩).messages
      = initialMessages_app "t0"
          ++ [userMessage (jsTrim "x") "t0", mockMessage (jsTrim "x") "t0"]
    ∧ (sendMessage_app "t0" QueryOutcome.networkError
        ⟨initialMessages_app "t0", "x", false, ConnStatus.disconnected,
         none⟩).loading = false
    ∧ (sendMessage_app "t0" QueryOutcome.networkError
        ⟨initialMessages_app "t0", "x", false, ConnStatus.disconnected,
         none⟩).connection = ConnStatus.disconnected) :=
  ⟨⟨by decide, rfl⟩,
   C1_failure_degrades
     ⟨initialMessages_chat "t0", "x", false, none⟩
     ⟨initialMessages_app "t0", "x", false, ConnStatus.disconnected, none⟩
     "t0" QueryOutcome.networkError QueryOutcome.networkError
     (by decide) rfl (by decide) rfl rfl rfl⟩

/-- Claim C3 (code_bug).  The fetch options of the POST /query call carry
no AbortSignal and no timeout; once a submit has set loading, a reply
that never arrives leaves the state Sending forever: no sequence of
further submit attempts (the only locally generated events) can return
the controller to Idle, only the resolution of the in-flight request
can. -/
theorem C3_no_timeout :
    queryFetchInit.hasAbortSignal = false
  ∧ (submitPhase_chat "t0"
      ⟨initialMessages_chat "t0", "x", false, none⟩).loading = true
  ∧ ∀ evts (s : LoopState), (∀ e ∈ evts, e.isAttempt = true) →
      runTrace "t0" ⟨[], true, 1⟩ evts = some s → s.loading = true := by
  refine ⟨rfl, by decide, ?_⟩
  intro evts s hall hrun
  have := attemptsOnly_no_unblock "t0" evts ⟨[], true, 1⟩ s hall rfl hrun
  rw [this]

/-- Witness for C3 on a one-attempt continuation of a stuck send. -/
theorem C3_witness :
    (∀ e ∈ [BatchEvt.attempt "y"], e.isAttempt = true)
  ∧ ((⟨[], true, 1⟩ : LoopState)).loading = true :=
  ⟨by decide,
   C3_no_timeout.2.2 [BatchEvt.attempt "y"] ⟨[], true, 1⟩ (by decide) rfl⟩

/-- Claim C4 (code_bug).  With client-local storage unavailable, the
unguarded localStorage accesses of saveHistory (ChatInterface.vue),
saveUserId (HomeView.vue) and the getItem of loadHistory propagate the
storage exception to their callers instead of degrading to an in-memory
value: an error is signalled, contradicting the claimed fallback. -/
theorem C4_storage_failure_raises :
    saveHistory_chatLS false (initialMessages_chat "t0")
      = Except.error StorageError.unavailable
  ∧ saveUserId_home false "user_abc" = Except.error StorageError.unavailable
  ∧ loadHistory_chatLS false "t0" none
      = Except.error StorageError.unavailable :=
  ⟨rfl, rfl, rfl⟩

/-- Claim C5 (confirmed).  Over any event-loop execution of the batch
run: at most one request is ever in flight and the loading guard tracks
it exactly, so an example is actually submitted only from the Idle state
and sends never overlap; the round of loadExamples that takes up item
i+1 starts exactly 2000 milliseconds after item i is dispatched (and the
HomeView schedule spaces dispatches by exactly 2000 milliseconds); and
the run generates exactly one attempt per example question, in order, so
it terminates after the last item. -/
theorem C5_batch_runner (now : String) (evts : List BatchEvt)
    (s : LoopState)
    (h : runTrace now ⟨initialMessages_app now, false, 0⟩ evts = some s) :
    s.inFlight ≤ 1
  ∧ s.loading = decide (s.inFlight = 1)
  ∧ (∀ i, considerTime_app (i + 1) = dispatchTime_app i + 2000)
  ∧ (∀ i, dispatchTime_home (i + 1) = dispatchTime_home i + 2000)
  ∧ loadExamplesAttempts.length = exampleQuestions_app.length
  ∧ loadExamplesAttempts.map Prod.snd = exampleQuestions_app := by
  have hinv := runTrace_invariant now evts
    ⟨initialMessages_app now, false, 0⟩ s (by simp) (by simp) h
  refine ⟨hinv.1, hinv.2, ?_, ?_, rfl, rfl⟩
  · intro i
    unfold considerTime_app dispatchTime_app
    omega
  · intro i
    unfold dispatchTime_home
    omega

/-- Witness for C5 on the one-attempt execution of the first example. -/
theorem C5_witness :
    (runTrace "t0" ⟨initialMessages_app "t0", false, 0⟩
        [BatchEvt.attempt "什么是KMP算法？"]
      = some ⟨initialMessages_app "t0"
                ++ [userMessage (jsTrim "什么是KMP算法？") "t0"], true, 1⟩)
  ∧ ((⟨initialMessages_app "t0"
        ++ [userMessage (jsTrim "什么是KMP算法？") "t0"], true, 1⟩ :
        LoopState).inFlight ≤ 1
    ∧ (⟨initialMessages_app "t0"
        ++ [userMessage (jsTrim "什么是KMP算法？") "t0"], true, 1⟩ :
        LoopState).loading
      = decide ((⟨initialMessages_app "t0"
          ++ [userMessage (jsTrim "什么是KMP算法？") "t0"], true, 1⟩ :
          LoopState).inFlight = 1)
    ∧ (∀ i, considerTime_app (i + 1) = dispatchTime_app i + 2000)
    ∧ (∀ i, dispatchTime_home (i + 1) = dispatchTime_home i + 2000)
    ∧ loadExamplesAttempts.length = exampleQuestions_app.length
    ∧ loadExamplesAttempts.map Prod.snd = exampleQuestions_app) :=
  ⟨rfl,
   C5_batch_runner "t0" [BatchEvt.attempt "什么是KMP算法？"]
     ⟨initialMessages_app "t0"
        ++ [userMessage (jsTrim "什么是KMP算法？") "t0"], true, 1⟩ rfl⟩

/-- Claim C6 (confirmed).  For every non-empty message list, saving it
and loading it back installs exactly the saved list (reading it field by
field recovers every message, in order), and re-saving the loaded
conversation writes back exactly the stored representation, in both
variants. -/
theorem C6_roundtrip (m : List Message) (now : String) (hm : m ≠ []) :
    loadHistory_chat now (some (saveHistory_chat m)) = encodeMessages ckey m
  ∧ decodeMessages ckey (loadHistory_chat now (some (saveHistory_chat m)))
      = some m
  ∧ Stored.json (loadHistory_chat now (some (saveHistory_chat m)))
      = saveHistory_chat m
  ∧ loadHistory_app now (some (saveHistory_app m)) = encodeMessages akey m
  ∧ decodeMessages akey (loadHistory_app now (some (saveHistory_app m)))
      = some m
  ∧ Stored.json (loadHistory_app now (some (saveHistory_app m)))
      = saveHistory_app m := by
  have hne : isNonEmptyArr (encodeMessages akey m) = true := by
    cases m with
    | nil => exact absurd rfl hm
    | cons a t => simp [encodeMessages, isNonEmptyArr]
  have happ : loadHistory_app now (some (saveHistory_app m))
      = encodeMessages akey m := by
    simp [loadHistory_app, saveHistory_app, hne]
  refine ⟨rfl, decodeMessages_encode_chat m, rfl, happ, ?_, ?_⟩
  · rw [happ]
    exact decodeMessages_encode_app m
  · rw [happ]
    rfl

/-- Witness for C6 at a two-message conversation. -/
theorem C6_witness :
    ([userMessage "hi" "t1", apologyMessage "t2"] ≠ ([] : List Message))
  ∧ (loadHistory_chat "t0"
        (some (saveHistory_chat [userMessage "hi" "t1", apologyMessage "t2"]))
      = encodeMessages ckey [userMessage "hi" "t1", apologyMessage "t2"]
    ∧ decodeMessages ckey (loadHistory_chat "t0"
        (some (saveHistory_chat [userMessage "hi" "t1", apologyMessage "t2"])))
      = some [userMessage "hi" "t1", apologyMessage "t2"]
    ∧ Stored.json (loadHistory_chat "t0"
        (some (saveHistory_chat [userMessage "hi" "t1", apologyMessage "t2"])))
      = saveHistory_chat [userMessage "hi" "t1", apologyMessage "t2"]
    ∧ loadHistory_app "t0"
        (some (saveHistory_app [userMessage "hi" "t1", apologyMessage "t2"]))
      = encodeMessages akey [userMessage "hi" "t1", apologyMessage "t2"]
    ∧ decodeMessages akey (loadHistory_app "t0"
        (some (saveHistory_app [userMessage "hi" "t1", apologyMessage "t2"])))
      = some [userMessage "hi" "t1", apologyMessage "t2"]
    ∧ Stored.json (loadHistory_app "t0"
        (some (saveHistory_app [userMessage "hi" "t1", apologyMessage "t2"])))
      = saveHistory_app [userMessage "hi" "t1", apologyMessage "t2"]) :=
  ⟨by simp,
   C6_roundtrip [userMessage "hi" "t1", apologyMessage "t2"] "t0" (by simp)⟩

/-- Claim C7 (confirmed).  A persisted history value that fails to parse
is treated by loadHistory exactly like an absent one: both variants
install the single canned greeting (role assistant, fixed content), and
the load is a total function, raising nothing to the caller. -/
theorem C7_malformed_is_absent (now : String) :
    loadHistory_chat now (some Stored.malformed) = loadHistory_chat now none
  ∧ loadHistory_chat now none = encodeMessages ckey (initialMessages_chat now)
  ∧ decodeMessages ckey (loadHistory_chat now (some Stored.malformed))
      = some (initialMessages_chat now)
  ∧ (initialMessages_chat now).length = 1
  ∧ (initialMessages_chat now).map Message.role = [Role.assistant]
  ∧ loadHistory_app now (some Stored.malformed) = loadHistory_app now none
  ∧ loadHistory_app now none = encodeMessages akey (initialMessages_app now)
  ∧ decodeMessages akey (loadHistory_app now (some Stored.malformed))
      = some (initialMessages_app now)
  ∧ (initialMessages_app now).length = 1
  ∧ (initialMessages_app now).map Message.role = [Role.assistant] :=
  ⟨rfl, rfl, decodeMessages_encode_chat _, rfl, rfl,
   rfl, rfl, decodeMessages_encode_app _, rfl, rfl⟩

/-- Claim C8 (confirmed).  clearChat behind a positive confirm resets the
conversation of either variant to exactly the one-message canned
greeting and removes the durable copy, so a subsequent load returns the
greeting again. -/
theorem C8_reset (now now2 : String) (s : ChatState) (t : AppState) :
    (clearChat_chat true now s).messages = initialMessages_chat now
  ∧ (clearChat_chat true now s).messages.length = 1
  ∧ (clearChat_chat true now s).stored = none
  ∧ loadHistory_chat now2 (clearChat_chat true now s).stored
      = encodeMessages ckey (initialMessages_chat now2)
  ∧ (clearChat_app true now t).messages = initialMessages_app now
  ∧ (clearChat_app true now t).messages.length = 1
  ∧ (clearChat_app true now t).stored = none
  ∧ loadHistory_app now2 (clearChat_app true now t).stored
      = encodeMessages akey (initialMessages_app now2) :=
  ⟨rfl, rfl, rfl, rfl, rfl, rfl, rfl, rfl⟩

/-- Claim C9 (code_bug).  api.healthCheck resolves to response.ok and to
false on a thrown fetch, and checkConnection of App.vue reports connected
exactly on an ok response; but refreshStatus of HomeView.vue tests a
status property on the boolean healthCheck resolves to, a test that can
never succeed, so it reports disconnected even for an ok response — for
every outcome. -/
theorem C9_health_status_mismatch :
    healthCheck (HealthOutcome.response true) = true
  ∧ healthCheck (HealthOutcome.response false) = false
  ∧ healthCheck HealthOutcome.netError = false
  ∧ checkConnection_app (HealthOutcome.response true) = ConnStatus.connected
  ∧ checkConnection_app (HealthOutcome.response false)
      = ConnStatus.disconnected
  ∧ checkConnection_app HealthOutcome.netError = ConnStatus.disconnected
  ∧ refreshStatus_home (HealthOutcome.response true) = ConnStatus.disconnected
  ∧ (∀ o : HealthOutcome, refreshStatus_home o = ConnStatus.disconnected) :=
  ⟨rfl, rfl, rfl, rfl, rfl, rfl, rfl, fun _ => rfl⟩

/-- Claim C10, counterexample.  A persisted value that parses to the
empty array is not treated as absent by loadHistory of
ChatInterface.vue: the empty array itself is installed as the
conversation instead of the canned greeting. -/
theorem C10_counterexample :
    loadHistory_chat "t0" (some (Stored.json (Json.arr []))) = Json.arr []
  ∧ Json.arr [] ≠ encodeMessages ckey (initialMessages_chat "t0") := by
  refine ⟨rfl, ?_⟩
  intro h
  simp [encodeMessages, initialMessages_chat] at h

/-- Claim C10 (corrected).  A successfully parsed value that is not a
non-empty array is treated as absent only by the App.vue loadHistory,
which keeps the canned greeting; the ChatInterface.vue loadHistory
installs every successfully parsed value as the conversation, an empty
array or an object included. -/
theorem C10_shape_check (now : String) (j : Json)
    (h : isNonEmptyArr j = false) :
    loadHistory_app now (some (Stored.json j))
      = encodeMessages akey (initialMessages_app now)
  ∧ loadHistory_chat now (some (Stored.json j)) = j := by
  refine ⟨?_, rfl⟩
  simp [loadHistory_app, h]

/-- Witness for C10 at a parsed JSON object. -/
theorem C10_witness :
    isNonEmptyArr (Json.obj []) = false
  ∧ (loadHistory_app "t0" (some (Stored.json (Json.obj [])))
      = encodeMessages akey (initialMessages_app "t0")
    ∧ loadHistory_chat "t0" (some (Stored.json (Json.obj []))) = Json.obj []) :=
  ⟨rfl, C10_shape_check "t0" (Json.obj []) rfl⟩
